import Mathlib

/-
Verification of `src/slack_sender/notifier.py` (JupyterSlackNotifier).

The module wraps the execution of a notebook cell: it sends a "start"
webhook notification, redirects `sys.stdout` to an in-memory buffer,
delegates execution to the host (`ipython.run_cell`), restores stdout,
replays the captured output, and then sends a "success" or "error"
notification; webhook POST failures are caught around each POST.

Shallow embedding conventions:
  * `datetime` values only ever appear through `strftime(DATE_FORMAT)` or
    `str(elapsed_time)`, so timestamps and durations are passed as the
    already-formatted strings.
  * `ipython.run_cell` is the opaque host collaborator: it is modelled as a
    `RunOutcome` oracle, either a normal result (an optional value plus the
    text written to the redirected stdout) or a raised exception plus that
    text.
  * `requests.post` is an opaque HTTP sink: each POST attempt is given an
    outcome oracle `Option String` (`none` = delivery succeeded, `some e` =
    the POST raised an exception whose display text is `e`).
  * Python name resolution is modelled explicitly by `resolveName` over the
    names actually bound in the module and in the body of the magic
    function, because the magic references the name `cell_id` (lines 113
    and 127 of the source) which is bound nowhere; in Python evaluating it
    raises `NameError`.
  * `str(v)` of an arbitrary cell result is fallible in Python, so a cell
    result value is modelled by what the code observes of it: `str?`, the
    result of `str(v)` (`none` when stringification raises).
  * Effects are made explicit: the list of POST attempts (each attempt is
    the association list passed to `json.dumps`), the text printed to the
    original stdout, the HTML error displays, the trace of assignments to
    `sys.stdout`, and the call result (normal return or raised exception).
-/

namespace SlackNotifier

/-- Python `sep.join(l)`: empty string on `[]`, otherwise the elements
interleaved with `sep`. -/
def pyJoin (sep : String) : List String → String
  | [] => ""
  | [x] => x
  | x :: y :: ys => x ++ sep ++ pyJoin sep (y :: ys)

/-- `DATE_FORMAT` from line 13 of the source (timestamps are passed to the
embedding already formatted with it). -/
def DATE_FORMAT : String := "%Y-%m-%d %H:%M:%S"

/-- The configuration state of `JupyterSlackNotifier.__init__`
(lines 35-59): webhook URL, channel, mention tokens, host name. -/
structure JupyterSlackNotifier where
  webhook_url : String
  channel : String
  user_mentions : List String
  host_name : String
  deriving DecidableEq, Repr

/-- A Python exception as the wrapper observes it: a `NameError` for an
unbound name, or an exception raised by the executed cell, identified by
type and message (Python `str(ex)`). -/
inductive PyExn where
  | nameError (name : String)
  | userExn (type msg : String)
  deriving DecidableEq, Repr

/-- Python `str(ex)`: the message for a cell exception, and the standard
`NameError` text for an unbound name. -/
def PyExn.display : PyExn → String
  | .nameError n => "name \x27" ++ n ++ "\x27 is not defined"
  | .userExn _ msg => msg

/-- What the code observes of a cell result value: `str?` is the outcome of
`str(v)` (`none` when stringification itself raises, the case guarded at
lines 172-178). -/
structure Val where
  str? : Option String
  deriving DecidableEq, Repr

/-- Names bound at module level in `notifier.py` (imports and top-level
definitions, lines 1-15). -/
def moduleGlobalNames : List String :=
  ["List", "datetime", "traceback", "json", "socket", "requests",
   "register_cell_magic", "display", "HTML", "get_ipython", "StringIO",
   "sys", "DATE_FORMAT", "JupyterSlackNotifier"]

/-- Every local name that is ever bound in the body of the magic function
`notify_slack` (lines 65-128): its parameters and every assignment target,
including the handler variable `ex`. -/
def magicLocalNames : List String :=
  ["line", "cell", "notifier", "start_time", "ipython", "old_stdout",
   "captured_output", "cell_result", "result", "output", "end_time",
   "elapsed_time", "ex"]

/-- Python builtins the module could see (none of them is `cell_id`). -/
def pyBuiltinNames : List String :=
  ["print", "str", "len", "Exception", "None", "True", "False"]

/-- Python name resolution inside the magic function: a name is found if it
is a local, a module global, or a builtin; otherwise evaluating it raises
`NameError`. -/
def resolveName (n : String) : Except PyExn Unit :=
  if n ∈ magicLocalNames ∨ n ∈ moduleGlobalNames ∨ n ∈ pyBuiltinNames then
    Except.ok ()
  else
    Except.error (PyExn.nameError n)

/-- The observable effect of one `_send_*_notification` call: the POST
attempts made (each the association list serialised by `json.dumps`) and
the warning text printed locally when the POST raised. These functions
always return normally: the `try/except` around `requests.post` (lines
148-151, 190-193, 229-232) catches every exception the POST raises. -/
structure SendEffect where
  posts : List (List (String × String))
  printed : String
  deriving DecidableEq, Repr

/-- The `contents` list built by `_send_start_notification` (lines
132-139). -/
def start_contents (self : JupyterSlackNotifier) (cell_id start_time : String) :
    List String :=
  ["The cell is running.",
   "Cell: " ++ cell_id,
   "Starting date: " ++ start_time]
  ++ (if self.user_mentions ≠ [] then [pyJoin " " self.user_mentions] else [])

/-- `_send_start_notification` (lines 130-151): build the body, POST the
dump, catch a POST failure and print a warning instead. -/
def send_start_notification (self : JupyterSlackNotifier)
    (cell_id start_time : String) (postOutcome : Option String) : SendEffect :=
  let dump : List (String × String) :=
    [("username", "Knock Knock"),
     ("channel", self.channel),
     ("icon_emoji", ":clapper:"),
     ("text", pyJoin "\n" (start_contents self cell_id start_time))]
  match postOutcome with
  | none => { posts := [dump], printed := "" }
  | some e =>
      { posts := [dump],
        printed := "Warning: Failed to send start notification: " ++ e }

/-- The `contents` list built by `_send_success_notification` (lines
157-181): header lines, the output block (truncated to 2000 characters with
a `...` marker when longer), the return-value line (truncated to 500
characters, or the fallback marker when `str` raises), then the mention
line. -/
def success_contents (self : JupyterSlackNotifier)
    (cell_id start_time end_time elapsed_time : String)
    (output : String) (cell_result : Option Val) : List String :=
  ["The cell is done.",
   "Cell: " ++ cell_id,
   "Starting date: " ++ start_time,
   "End date: " ++ end_time,
   "Execution duration: " ++ elapsed_time]
  ++ (if output ≠ "" then
        [let output_preview :=
           if output.length > 2000 then output.take 2000 ++ "..." else output
         "\nCell Output:\n```\n" ++ output_preview ++ "\n```"]
      else [])
  ++ (match cell_result with
      | none => []
      | some v =>
          match v.str? with
          | some s =>
              [let result_str := if s.length > 500 then s.take 500 ++ "..." else s
               "\nReturn Value: " ++ result_str]
          | none => ["\nReturn Value: <unable to stringify>"])
  ++ (if self.user_mentions ≠ [] then [pyJoin " " self.user_mentions] else [])

/-- `_send_success_notification` (lines 153-193). -/
def send_success_notification (self : JupyterSlackNotifier)
    (cell_id start_time end_time elapsed_time : String)
    (output : String) (cell_result : Option Val)
    (postOutcome : Option String) : SendEffect :=
  let dump : List (String × String) :=
    [("username", "Knock Knock"),
     ("channel", self.channel),
     ("icon_emoji", ":tada:"),
     ("text", pyJoin "\n"
        (success_contents self cell_id start_time end_time elapsed_time
          output cell_result))]
  match postOutcome with
  | none => { posts := [dump], printed := "" }
  | some e =>
      { posts := [dump],
        printed := "Warning: Failed to send success notification: " ++ e }

/-- The `contents` list built by `_send_error_notification` (lines
199-220): header lines, the output-before-error block (truncated to 1000
characters with a `...` marker when longer), the exception display text,
the traceback block (`tbText` models `traceback.format_exc()`), then the
mention line. -/
def error_contents (self : JupyterSlackNotifier)
    (cell_id start_time end_time elapsed_time : String)
    (exception : PyExn) (output : String) (tbText : String) : List String :=
  ["The cell has crashed ☠️",
   "Cell: " ++ cell_id,
   "Starting date: " ++ start_time,
   "Crash date: " ++ end_time,
   "Crashed execution duration: " ++ elapsed_time ++ "\n"]
  ++ (if output ≠ "" then
        [let output_preview :=
           if output.length > 1000 then output.take 1000 ++ "..." else output
         "Output before error:\n```\n" ++ output_preview ++ "\n```\n"]
      else [])
  ++ ["Here\x27s the error:",
      exception.display ++ "\n",
      "Traceback:",
      "```\n" ++ tbText ++ "\n```"]
  ++ (if self.user_mentions ≠ [] then [pyJoin " " self.user_mentions] else [])

/-- `_send_error_notification` (lines 195-232). -/
def send_error_notification (self : JupyterSlackNotifier)
    (cell_id start_time end_time elapsed_time : String)
    (exception : PyExn) (output : String) (tbText : String)
    (postOutcome : Option String) : SendEffect :=
  let dump : List (String × String) :=
    [("username", "Knock Knock"),
     ("channel", self.channel),
     ("icon_emoji", ":skull_and_crossbones:"),
     ("text", pyJoin "\n"
        (error_contents self cell_id start_time end_time elapsed_time
          exception output tbText))]
  match postOutcome with
  | none => { posts := [dump], printed := "" }
  | some e =>
      { posts := [dump],
        printed := "Warning: Failed to send error notification: " ++ e }

/-- The outcome of `ipython.run_cell(cell)`, the opaque host collaborator:
either a normal completion with an optional result value (`result.result`)
and the text the cell wrote to the redirected stdout, or a raised exception
together with that text. -/
inductive RunOutcome where
  | ok (res : Option Val) (printed : String)
  | raised (ex : PyExn) (printed : String)
  deriving DecidableEq, Repr

/-- A target `sys.stdout` can be assigned to: the saved original stream
(`old_stdout`) or the in-memory capture buffer. -/
inductive StdoutTarget where
  | old
  | buffer
  deriving DecidableEq, Repr

/-- How the magic function ends: a normal return (Python `None`) or a
raised exception. -/
inductive WrapResult where
  | returned
  | raisedExn (ex : PyExn)
  deriving DecidableEq, Repr

/-- The observable effect of one invocation of the magic `notify_slack`:
POST attempts in order, the text that reached the original stdout, the HTML
error displays, the assignments made to `sys.stdout` in order, and the call
result. -/
structure WrapEffect where
  posts : List (List (String × String))
  callerOut : String
  displayed : List String
  stdoutTrace : List StdoutTarget
  result : WrapResult
  deriving DecidableEq, Repr

/-- The `sys.stdout` target after the wrapper exits: the last assignment in
the trace, or the original stream when nothing was ever reassigned. -/
def finalStdout (trace : List StdoutTarget) : StdoutTarget :=
  (trace.getLast?).getD StdoutTarget.old

/-- The magic function `notify_slack` (lines 65-128), step by step.

* Lines 73-75: no active instance → display an HTML error and return.
* Line 81: send the start notification (stdout still the original stream,
  so its warning, if any, reaches the caller).
* Lines 87-88: save `old_stdout`, assign the capture buffer to
  `sys.stdout`.
* Line 94: `ipython.run_cell(cell)` (the `run` oracle); everything the cell
  prints lands in the capture buffer.
* Normal completion (lines 97-113): read the buffer, restore stdout
  (line 104), replay the buffered text to the original stream (lines
  107-108), then line 113 evaluates the argument `cell_id` before the call:
  resolution of that name decides whether `_send_success_notification` runs
  or a `NameError` is raised into the `except` block.
* `except Exception as ex` (lines 115-128): restore stdout (line 117), read
  the buffer again and replay it (lines 120-122), then line 127 again
  evaluates `cell_id` before `_send_error_notification`: if resolution
  fails the `NameError` propagates out of the handler; otherwise the error
  notification is sent and line 128 re-raises `ex`. -/
def notify_slack (inst : Option JupyterSlackNotifier) (cell : String)
    (start_time end_time elapsed_time tbText : String)
    (run : RunOutcome) (postOutcome1 postOutcome2 : Option String) :
    WrapEffect :=
  match inst with
  | none =>
      { posts := [], callerOut := "",
        displayed :=
          ["<span style=\"color: red;\">Error: JupyterSlackNotifier not initialized!</span>"],
        stdoutTrace := [], result := WrapResult.returned }
  | some notifier =>
      let startEff := send_start_notification notifier cell start_time postOutcome1
      match run with
      | RunOutcome.ok cell_result output =>
          match resolveName "cell_id" with
          | Except.ok _ =>
              let succEff := send_success_notification notifier cell start_time
                end_time elapsed_time output cell_result postOutcome2
              { posts := startEff.posts ++ succEff.posts,
                callerOut := startEff.printed ++ output ++ succEff.printed,
                displayed := [],
                stdoutTrace := [StdoutTarget.buffer, StdoutTarget.old],
                result := WrapResult.returned }
          | Except.error exn =>
              match resolveName "cell_id" with
              | Except.ok _ =>
                  let errEff := send_error_notification notifier cell start_time
                    end_time elapsed_time exn output tbText postOutcome2
                  { posts := startEff.posts ++ errEff.posts,
                    callerOut := startEff.printed ++ output ++ output ++ errEff.printed,
                    displayed := [],
                    stdoutTrace :=
                      [StdoutTarget.buffer, StdoutTarget.old, StdoutTarget.old],
                    result := WrapResult.raisedExn exn }
              | Except.error exn2 =>
                  { posts := startEff.posts,
                    callerOut := startEff.printed ++ output ++ output,
                    displayed := [],
                    stdoutTrace :=
                      [StdoutTarget.buffer, StdoutTarget.old, StdoutTarget.old],
                    result := WrapResult.raisedExn exn2 }
      | RunOutcome.raised ex output =>
          match resolveName "cell_id" with
          | Except.ok _ =>
              let errEff := send_error_notification notifier cell start_time
                end_time elapsed_time ex output tbText postOutcome2
              { posts := startEff.posts ++ errEff.posts,
                callerOut := startEff.printed ++ output ++ errEff.printed,
                displayed := [],
                stdoutTrace := [StdoutTarget.buffer, StdoutTarget.old],
                result := WrapResult.raisedExn ex }
          | Except.error exn2 =>
              { posts := startEff.posts,
                callerOut := startEff.printed ++ output,
                displayed := [],
                stdoutTrace := [StdoutTarget.buffer, StdoutTarget.old],
                result := WrapResult.raisedExn exn2 }

/-- The name `cell_id` is bound nowhere visible to the magic function, so
evaluating it raises `NameError` (the defect at lines 113 and 127). -/
theorem resolveName_cell_id :
    resolveName "cell_id" = Except.error (PyExn.nameError "cell_id") := by
  rfl

/-- Python `sep.join` over a nonempty list with one element appended:
the separator and the new element are appended to the joined prefix. -/
theorem pyJoin_append_singleton (sep m : String) (l : List String)
    (h : l ≠ []) :
    pyJoin sep (l ++ [m]) = pyJoin sep l ++ sep ++ m := by
  induction l with
  | nil => exact absurd rfl h
  | cons x xs ih =>
      cases xs with
      | nil => rfl
      | cons y ys =>
          have h2 := ih (List.cons_ne_nil y ys)
          simp only [List.cons_append, pyJoin, List.append_eq] at h2 ⊢
          rw [h2]
          simp [String.append_assoc]

/-- C1: the claim says a raising cell yields one "start" and one "error"
notification attempt and the re-raise of the original exception; on the
code, the `except` handler evaluates the unbound name `cell_id` (line 127)
before `_send_error_notification` can run, so for a cell raising
`ZeroDivisionError` only the start notification is attempted and a
`NameError` — not the original exception — propagates to the caller. -/
theorem c1_code_bug_eval :
    notify_slack
        (some ⟨"https://hooks.example/T000", "#ml-runs", [], "host"⟩)
        "1/0" "2026-01-01 00:00:00" "2026-01-01 00:00:01" "0:00:01"
        "Traceback (most recent call last):\nZeroDivisionError: division by zero"
        (RunOutcome.raised (PyExn.userExn "ZeroDivisionError" "division by zero") "")
        none none
      = { posts :=
            [[("username", "Knock Knock"), ("channel", "#ml-runs"),
              ("icon_emoji", ":clapper:"),
              ("text",
                "The cell is running.\nCell: 1/0\nStarting date: 2026-01-01 00:00:00")]],
          callerOut := "", displayed := [],
          stdoutTrace := [StdoutTarget.buffer, StdoutTarget.old],
          result := WrapResult.raisedExn (PyExn.nameError "cell_id") } := by
  rfl

/-- C2: the claim says a normally returning cell yields one "start" and one
"success" notification attempt and delivery of the return value; on the
code, line 113 evaluates the unbound name `cell_id` before
`_send_success_notification` can run, the resulting `NameError` enters the
`except` handler, and line 127 raises `NameError` again — so only the start
notification is attempted and the wrapper raises instead of returning. -/
theorem c2_code_bug_eval :
    notify_slack
        (some ⟨"https://hooks.example/T000", "#ml-runs", [], "host"⟩)
        "1 + 1" "2026-01-01 00:00:00" "2026-01-01 00:00:01" "0:00:01" ""
        (RunOutcome.ok (some ⟨some "2"⟩) "") none none
      = { posts :=
            [[("username", "Knock Knock"), ("channel", "#ml-runs"),
              ("icon_emoji", ":clapper:"),
              ("text",
                "The cell is running.\nCell: 1 + 1\nStarting date: 2026-01-01 00:00:00")]],
          callerOut := "", displayed := [],
          stdoutTrace := [StdoutTarget.buffer, StdoutTarget.old, StdoutTarget.old],
          result := WrapResult.raisedExn (PyExn.nameError "cell_id") } := by
  rfl

/-- C3: a webhook delivery failure during any of the three notification
attempts is caught at the POST, reported only as a locally printed warning,
and never changes which POSTs are attempted, the call result, or the
wrapper's POST sequence: each send function returns the same POST attempt
with the warning text on failure, and the wrapper's result and POST list do
not depend on the POST outcomes. -/
theorem c3_delivery_failure_isolated (n : JupyterSlackNotifier)
    (cid st et el tb msg output : String) (res : Option Val) (ex : PyExn)
    (inst : Option JupyterSlackNotifier) (cell : String) (run : RunOutcome)
    (p1 p1' p2 p2' : Option String) :
    (send_start_notification n cid st (some msg)).posts
        = (send_start_notification n cid st none).posts
    ∧ (send_start_notification n cid st (some msg)).printed
        = "Warning: Failed to send start notification: " ++ msg
    ∧ (send_success_notification n cid st et el output res (some msg)).posts
        = (send_success_notification n cid st et el output res none).posts
    ∧ (send_success_notification n cid st et el output res (some msg)).printed
        = "Warning: Failed to send success notification: " ++ msg
    ∧ (send_error_notification n cid st et el ex output tb (some msg)).posts
        = (send_error_notification n cid st et el ex output tb none).posts
    ∧ (send_error_notification n cid st et el ex output tb (some msg)).printed
        = "Warning: Failed to send error notification: " ++ msg
    ∧ (notify_slack inst cell st et el tb run p1 p2).result
        = (notify_slack inst cell st et el tb run p1' p2').result
    ∧ (notify_slack inst cell st et el tb run p1 p2).posts
        = (notify_slack inst cell st et el tb run p1' p2').posts := by
  refine ⟨rfl, rfl, rfl, rfl, rfl, rfl, ?_, ?_⟩ <;>
    cases inst <;> cases run <;> cases p1 <;> cases p1' <;> rfl

/-- C4: the claim says the executed cell's standard output reaches the
caller exactly once; on the code, a succeeding cell that prints has its
captured output replayed at line 108 and then replayed a second time at
line 122 after the `cell_id` `NameError` enters the `except` handler, so
the caller sees the output twice. -/
theorem c4_code_bug_eval :
    (notify_slack
        (some ⟨"https://hooks.example/T000", "#ml-runs", [], "host"⟩)
        "print(\"loss=0.1\")" "2026-01-01 00:00:00" "2026-01-01 00:00:01"
        "0:00:01" ""
        (RunOutcome.ok none "loss=0.1\n") none none).callerOut
      = "loss=0.1\nloss=0.1\n" := by
  rfl

/-- C5: on every exit path of the wrapped execution — normal completion,
a raising cell, and the `NameError` paths — the last assignment made to
`sys.stdout` is the saved original stream, so the redirection to the
in-memory buffer is always undone. -/
theorem c5_stdout_always_restored (inst : Option JupyterSlackNotifier)
    (cell st et el tb : String) (run : RunOutcome) (p1 p2 : Option String) :
    finalStdout (notify_slack inst cell st et el tb run p1 p2).stdoutTrace
      = StdoutTarget.old := by
  cases inst <;> cases run <;> rfl

/-- C6: nonempty captured output is embedded in the success body truncated
to its first 2000 characters with a `...` marker exactly when it exceeds
2000 characters (otherwise verbatim), and in the error body under the same
rule at 1000 characters. -/
theorem c6_output_truncation (n : JupyterSlackNotifier)
    (cid st et el tb output : String) (res : Option Val) (ex : PyExn)
    (h : output ≠ "") :
    ("\nCell Output:\n```\n"
        ++ (if output.length > 2000 then output.take 2000 ++ "..." else output)
        ++ "\n```")
      ∈ success_contents n cid st et el output res
    ∧ ("Output before error:\n```\n"
        ++ (if output.length > 1000 then output.take 1000 ++ "..." else output)
        ++ "\n```\n")
      ∈ error_contents n cid st et el ex output tb := by
  constructor <;>
  · simp only [success_contents, error_contents, if_pos h]
    simp [List.mem_append]

/-- Witness for C6 at the concrete output `"x"`. -/
theorem c6_output_truncation_witness :
    "\nCell Output:\n```\nx\n```"
      ∈ success_contents ⟨"u", "#c", [], "h"⟩ "cell" "s" "e" "d" "x" none
    ∧ "Output before error:\n```\nx\n```\n"
      ∈ error_contents ⟨"u", "#c", [], "h"⟩ "cell" "s" "e" "d"
          (PyExn.userExn "E" "m") "x" "tb" :=
  c6_output_truncation ⟨"u", "#c", [], "h"⟩ "cell" "s" "e" "d" "tb" "x" none
    (PyExn.userExn "E" "m") (by decide)

/-- C7: in the success body the stringified return value is truncated to
its first 500 characters with a `...` marker exactly when it is longer than
500 characters, and a return value whose stringification raises produces
the fixed fallback marker line instead (the send function still returns
normally). -/
theorem c7_return_value_truncation (n : JupyterSlackNotifier)
    (cid st et el output : String) (s : String) :
    ("\nReturn Value: "
        ++ (if s.length > 500 then s.take 500 ++ "..." else s))
      ∈ success_contents n cid st et el output (some ⟨some s⟩)
    ∧ "\nReturn Value: <unable to stringify>"
      ∈ success_contents n cid st et el output (some ⟨none⟩) := by
  constructor <;> simp [success_contents]

/-- C8: when the configured mention-token list is nonempty, every
notification body equals the corresponding body built with no mentions,
followed by a newline and the mention tokens verbatim joined by single
spaces — i.e. the space-joined mentions form the final appended line; with
an empty list no mention line is added (the no-mention body is exactly the
base case). -/
theorem c8_mentions_final_line (n : JupyterSlackNotifier)
    (cid st et el tb output : String) (res : Option Val) (ex : PyExn)
    (h : n.user_mentions ≠ []) :
    pyJoin "\n" (start_contents n cid st)
      = pyJoin "\n" (start_contents { n with user_mentions := [] } cid st)
          ++ "\n" ++ pyJoin " " n.user_mentions
    ∧ pyJoin "\n" (success_contents n cid st et el output res)
      = pyJoin "\n"
          (success_contents { n with user_mentions := [] } cid st et el output res)
          ++ "\n" ++ pyJoin " " n.user_mentions
    ∧ pyJoin "\n" (error_contents n cid st et el ex output tb)
      = pyJoin "\n"
          (error_contents { n with user_mentions := [] } cid st et el ex output tb)
          ++ "\n" ++ pyJoin " " n.user_mentions := by
  refine ⟨?_, ?_, ?_⟩ <;>
  · simp only [start_contents, success_contents, error_contents, if_pos h,
      if_neg (by simp : ¬(([] : List String) ≠ [])), List.append_nil]
    exact pyJoin_append_singleton "\n" (pyJoin " " n.user_mentions) _
      (by simp [List.append_eq_nil])

/-- Witness for C8 at a concrete notifier with one mention token. -/
theorem c8_mentions_final_line_witness :
    pyJoin "\n" (start_contents ⟨"u", "#c", ["<@U1>"], "h"⟩ "cell" "s")
      = pyJoin "\n" (start_contents ⟨"u", "#c", [], "h"⟩ "cell" "s")
          ++ "\n" ++ pyJoin " " ["<@U1>"]
    ∧ pyJoin "\n"
        (success_contents ⟨"u", "#c", ["<@U1>"], "h"⟩ "cell" "s" "e" "d" "o" none)
      = pyJoin "\n"
          (success_contents ⟨"u", "#c", [], "h"⟩ "cell" "s" "e" "d" "o" none)
          ++ "\n" ++ pyJoin " " ["<@U1>"]
    ∧ pyJoin "\n"
        (error_contents ⟨"u", "#c", ["<@U1>"], "h"⟩ "cell" "s" "e" "d"
          (PyExn.userExn "E" "m") "o" "tb")
      = pyJoin "\n"
          (error_contents ⟨"u", "#c", [], "h"⟩ "cell" "s" "e" "d"
            (PyExn.userExn "E" "m") "o" "tb")
          ++ "\n" ++ pyJoin " " ["<@U1>"] :=
  c8_mentions_final_line ⟨"u", "#c", ["<@U1>"], "h"⟩ "cell" "s" "e" "d" "tb"
    "o" none (PyExn.userExn "E" "m") (by decide)

/-- C9: for each of the three notification kinds and any POST outcome,
exactly one POST is attempted and its payload is the association list with
exactly the fields `username` (always `"Knock Knock"`), `channel` (the
configured channel), `icon_emoji` (`:clapper:` for start, `:tada:` for
success, `:skull_and_crossbones:` for error), and `text` (the
newline-joined body). -/
theorem c9_payload_fields (n : JupyterSlackNotifier)
    (cid st et el tb output : String) (res : Option Val) (ex : PyExn)
    (p : Option String) :
    (send_start_notification n cid st p).posts
      = [[("username", "Knock Knock"), ("channel", n.channel),
          ("icon_emoji", ":clapper:"),
          ("text", pyJoin "\n" (start_contents n cid st))]]
    ∧ (send_success_notification n cid st et el output res p).posts
      = [[("username", "Knock Knock"), ("channel", n.channel),
          ("icon_emoji", ":tada:"),
          ("text", pyJoin "\n" (success_contents n cid st et el output res))]]
    ∧ (send_error_notification n cid st et el ex output tb p).posts
      = [[("username", "Knock Knock"), ("channel", n.channel),
          ("icon_emoji", ":skull_and_crossbones:"),
          ("text", pyJoin "\n" (error_contents n cid st et el ex output tb))]] := by
  refine ⟨?_, ?_, ?_⟩ <;> cases p <;> rfl

/-- C10: when no notifier instance is active, the magic displays the HTML
error message and returns immediately: no POST is attempted, nothing is
printed, `sys.stdout` is never reassigned, and — since the effect is the
same constant for every `run` oracle — the cell source is not executed. -/
theorem c10_uninitialized_noop (cell st et el tb : String)
    (run : RunOutcome) (p1 p2 : Option String) :
    notify_slack none cell st et el tb run p1 p2
      = { posts := [], callerOut := "",
          displayed :=
            ["<span style=\"color: red;\">Error: JupyterSlackNotifier not initialized!</span>"],
          stdoutTrace := [], result := WrapResult.returned } := by
  rfl

end SlackNotifier
